import Mathlib

/-!
Shallow embedding of the database-access layer of the study-sql repository
(file src/poetry_template/db.py) together with the ad-hoc query routing of
the GUI layer (file src/poetry_template/main.py), and proofs of the
specification claims about them.

Modelling conventions:
- the sqlite3 / psycopg2 engines and the filesystem are oracles, structures
  of functions supplied as parameters;
- every observable side effect (creating directories, running the init
  script, opening a connection, executing a statement, checking a
  connection out of the pool or returning it, closing) is recorded in a
  trace of events;
- a Python method that can raise returns an Except value; an exception that
  the source catches without re-raising (the close paths) is reflected by a
  total return type.
-/

namespace StudySql

/-- Opaque identifier of a live sqlite3 connection or psycopg2 connection. -/
abbrev Conn := Nat

/-- Opaque identifier of a psycopg2 SimpleConnectionPool. -/
abbrev Pool := Nat

/-- Abstract query parameter value. -/
abbrev Param := String

/-- Abstract result row. -/
abbrev Row := List String

/-- Errors that propagate out of the adapter layer: RuntimeError raised by
the adapters themselves, KeyError from a missing environment variable, and
engine errors (sqlite3.Error / psycopg2.Error / OSError) re-raised after
logging. -/
inductive DBError where
  | runtimeError (msg : String)
  | keyError (key : String)
  | engineError (msg : String)
deriving DecidableEq, Repr

/-- Observable side effects of the adapter layer, in program order. -/
inductive Event where
  | mkdirParents (dbPath : String)
  | warnNoScript
  | runInitScript (scriptPath : String) (dbPath : String)
  | openSqlite (dbPath : String)
  | sqliteExec (c : Conn) (query : String) (params : List Param)
  | sqliteClose (c : Conn)
  | openPool (conninfo : String)
  | getconn (c : Conn)
  | pgExec (c : Conn) (query : String) (params : Option (List Param))
  | putconn (c : Conn)
  | closePool (p : Pool)
deriving DecidableEq, Repr

/-- Oracle for the sqlite3 module and the filesystem as seen by the
SQLite adapter. -/
structure SQLiteEngine where
  fileExists : String → Bool
  scriptResult : String → String → Except String Unit
  connectResult : String → Except String Conn
  execResult : Conn → String → List Param → Except String Unit
  fetchResult : Conn → String → List Param → Except String (List Row)
  closeResult : Conn → Except String Unit

/-- Oracle for the psycopg2 module as seen by the PostgreSQL adapter. -/
structure PGEngine where
  poolResult : String → Except String Pool
  getconnResult : Pool → Except String Conn
  execResult : Conn → String → Option (List Param) → Except String Unit
  fetchResult : Conn → String → Option (List Param) → Except String (List Row)
  closeAllResult : Pool → Except String Unit

/-- Python expression query.replace("%s", "?") from
SQLiteDatabaseHandler.execute_query / fetch_query: left-to-right
non-overlapping replacement of the two-character pattern. -/
def pyReplacePercentS : List Char → List Char
  | [] => []
  | [c] => [c]
  | c :: d :: rest =>
    if c = '%' ∧ d = 's' then '?' :: pyReplacePercentS rest
    else c :: pyReplacePercentS (d :: rest)

/-- Placeholder rewriting applied by the SQLite adapter before execution. -/
def rewriteQuery (q : String) : String :=
  String.mk (pyReplacePercentS q.data)

/-- No occurrence of the server-style placeholder marker remains in the
character list: the query is already in native form. -/
def noPercentS : List Char → Bool
  | [] => true
  | [_] => true
  | c :: d :: rest => !(c = '%' && d = 's') && noPercentS (d :: rest)

/-- State of SQLiteDatabaseHandler (db.py lines 69-198). -/
structure SQLiteDatabaseHandler where
  connection : Option Conn
  database_path : String
  init_sql_path : Option String
deriving DecidableEq, Repr

/-- SQLiteDatabaseHandler.get_db_path: string concatenation of the resolved
application directory and the supplied path (db.py lines 85-97). -/
def get_db_path (appDir : String) (db_path : String) : String :=
  appDir ++ db_path

/-- SQLiteDatabaseHandler.connect together with _create_database
(db.py lines 99-140): if the database file does not exist, create the
parent directories and, when an init script is configured, run it against
a fresh file (else only log a warning); then open the working connection. -/
def SQLiteDatabaseHandler.connect (eng : SQLiteEngine) (h : SQLiteDatabaseHandler) :
    List Event × Except DBError SQLiteDatabaseHandler :=
  if eng.fileExists h.database_path then
    match eng.connectResult h.database_path with
    | .ok c => ([.openSqlite h.database_path], .ok { h with connection := some c })
    | .error e => ([.openSqlite h.database_path], .error (.engineError e))
  else
    match h.init_sql_path with
    | none =>
      match eng.connectResult h.database_path with
      | .ok c =>
          ([.mkdirParents h.database_path, .warnNoScript, .openSqlite h.database_path],
            .ok { h with connection := some c })
      | .error e =>
          ([.mkdirParents h.database_path, .warnNoScript, .openSqlite h.database_path],
            .error (.engineError e))
    | some sp =>
      match eng.scriptResult sp h.database_path with
      | .error e =>
          ([.mkdirParents h.database_path, .runInitScript sp h.database_path],
            .error (.engineError e))
      | .ok _ =>
        match eng.connectResult h.database_path with
        | .ok c =>
            ([.mkdirParents h.database_path, .runInitScript sp h.database_path,
               .openSqlite h.database_path],
              .ok { h with connection := some c })
        | .error e =>
            ([.mkdirParents h.database_path, .runInitScript sp h.database_path,
               .openSqlite h.database_path],
              .error (.engineError e))

/-- SQLiteDatabaseHandler.__init__ (db.py lines 72-83): resolve the path,
store the init script path, then connect. -/
def SQLiteDatabaseHandler.construct (eng : SQLiteEngine) (appDir database_path : String)
    (init_sql_path : Option String) : List Event × Except DBError SQLiteDatabaseHandler :=
  SQLiteDatabaseHandler.connect eng
    { connection := none
      database_path := get_db_path appDir database_path
      init_sql_path := init_sql_path }

/-- SQLiteDatabaseHandler.is_connected (db.py lines 113-120). -/
def SQLiteDatabaseHandler.is_connected (h : SQLiteDatabaseHandler) : Bool :=
  h.connection.isSome

/-- SQLiteDatabaseHandler.execute_query (db.py lines 142-162): raise when
no connection, rewrite placeholders, execute with params or []. -/
def SQLiteDatabaseHandler.execute_query (eng : SQLiteEngine) (h : SQLiteDatabaseHandler)
    (query : String) (params : Option (List Param)) : List Event × Except DBError Unit :=
  match h.connection with
  | none => ([], .error (.runtimeError "Database connection is not established"))
  | some c =>
    let q := rewriteQuery query
    let ps := params.getD []
    match eng.execResult c q ps with
    | .ok _ => ([.sqliteExec c q ps], .ok ())
    | .error e => ([.sqliteExec c q ps], .error (.engineError e))

/-- SQLiteDatabaseHandler.fetch_query (db.py lines 164-188). -/
def SQLiteDatabaseHandler.fetch_query (eng : SQLiteEngine) (h : SQLiteDatabaseHandler)
    (query : String) (params : Option (List Param)) :
    List Event × Except DBError (List Row) :=
  match h.connection with
  | none => ([], .error (.runtimeError "Database connection is not established"))
  | some c =>
    let q := rewriteQuery query
    let ps := params.getD []
    match eng.fetchResult c q ps with
    | .ok rows => ([.sqliteExec c q ps], .ok rows)
    | .error e => ([.sqliteExec c q ps], .error (.engineError e))

/-- SQLiteDatabaseHandler.close_connection (db.py lines 190-198): when a
connection is present, attempt to close it; on success clear the field; a
sqlite3.Error is caught and logged, never re-raised, and the field keeps
its value because the assignment is skipped. -/
def SQLiteDatabaseHandler.close_connection (eng : SQLiteEngine) (h : SQLiteDatabaseHandler) :
    List Event × SQLiteDatabaseHandler :=
  match h.connection with
  | none => ([], h)
  | some c =>
    match eng.closeResult c with
    | .ok _ => ([.sqliteClose c], { h with connection := none })
    | .error _ => ([.sqliteClose c], h)

/-- State of PostgreSQLDatabaseHandler (db.py lines 201-296). -/
structure PostgreSQLDatabaseHandler where
  conninfo : String
  pool : Option Pool
deriving DecidableEq, Repr

/-- PostgreSQLDatabaseHandler.connect (db.py lines 215-224). -/
def PostgreSQLDatabaseHandler.connect (eng : PGEngine) (h : PostgreSQLDatabaseHandler) :
    List Event × Except DBError PostgreSQLDatabaseHandler :=
  match eng.poolResult h.conninfo with
  | .ok p => ([.openPool h.conninfo], .ok { h with pool := some p })
  | .error e => ([.openPool h.conninfo], .error (.engineError e))

/-- PostgreSQLDatabaseHandler.__init__ (db.py lines 204-213). -/
def PostgreSQLDatabaseHandler.construct (eng : PGEngine) (conninfo : String) :
    List Event × Except DBError PostgreSQLDatabaseHandler :=
  PostgreSQLDatabaseHandler.connect eng { conninfo := conninfo, pool := none }

/-- PostgreSQLDatabaseHandler.is_connected (db.py lines 226-233). -/
def PostgreSQLDatabaseHandler.is_connected (h : PostgreSQLDatabaseHandler) : Bool :=
  h.pool.isSome

/-- PostgreSQLDatabaseHandler.execute_query (db.py lines 235-258): check
out a connection, execute, and in the finally block return the connection
to the pool whenever one was obtained. -/
def PostgreSQLDatabaseHandler.execute_query (eng : PGEngine) (h : PostgreSQLDatabaseHandler)
    (query : String) (params : Option (List Param)) : List Event × Except DBError Unit :=
  match h.pool with
  | none => ([], .error (.runtimeError "Database connection pool is not established"))
  | some p =>
    match eng.getconnResult p with
    | .error e => ([], .error (.engineError e))
    | .ok c =>
      match eng.execResult c query params with
      | .ok _ => ([.getconn c, .pgExec c query params, .putconn c], .ok ())
      | .error e => ([.getconn c, .pgExec c query params, .putconn c], .error (.engineError e))

/-- PostgreSQLDatabaseHandler.fetch_query (db.py lines 260-286). -/
def PostgreSQLDatabaseHandler.fetch_query (eng : PGEngine) (h : PostgreSQLDatabaseHandler)
    (query : String) (params : Option (List Param)) :
    List Event × Except DBError (List Row) :=
  match h.pool with
  | none => ([], .error (.runtimeError "Database connection pool is not established"))
  | some p =>
    match eng.getconnResult p with
    | .error e => ([], .error (.engineError e))
    | .ok c =>
      match eng.fetchResult c query params with
      | .ok rows => ([.getconn c, .pgExec c query params, .putconn c], .ok rows)
      | .error e => ([.getconn c, .pgExec c query params, .putconn c], .error (.engineError e))

/-- PostgreSQLDatabaseHandler.close_connection (db.py lines 288-296):
attempt closeall; a psycopg2.Error is caught and logged, never re-raised,
and the pool field keeps its value because the assignment is skipped. -/
def PostgreSQLDatabaseHandler.close_connection (eng : PGEngine) (h : PostgreSQLDatabaseHandler) :
    List Event × PostgreSQLDatabaseHandler :=
  match h.pool with
  | none => ([], h)
  | some p =>
    match eng.closeAllResult p with
    | .ok _ => ([.closePool p], { h with pool := none })
    | .error _ => ([.closePool p], h)

/-- The active adapter held by the unified handler: exactly one of the two
concrete BaseDatabaseHandler implementations. -/
inductive BaseHandler where
  | sqlite (h : SQLiteDatabaseHandler)
  | postgres (h : PostgreSQLDatabaseHandler)
deriving DecidableEq, Repr

/-- Delegated is_connected on the active adapter. -/
def BaseHandler.is_connected : BaseHandler → Bool
  | .sqlite h => h.is_connected
  | .postgres h => h.is_connected

/-- State of the unified DatabaseHandler (db.py lines 299-405). -/
structure DatabaseHandler where
  use_postgres : Bool
  handler : Option BaseHandler
deriving DecidableEq, Repr

/-- Process environment as read by DatabaseHandler._connect. -/
structure Env where
  POSTGRES_USER : Option String
  POSTGRES_PASSWORD : Option String
  POSTGRES_HOST : Option String
  POSTGRES_PORT : Option String
  POSTGRES_DB_NAME : Option String
  SQLITE_DB_PATH : Option String

/-- The conninfo f-string of DatabaseHandler._connect (db.py lines 341-347). -/
def buildConninfo (user password host port dbName : String) : String :=
  "postgresql://" ++ user ++ ":" ++ password ++ "@" ++ host ++ ":" ++ port ++ "/"
    ++ dbName ++ "?sslmode=disable"

/-- Relative path of the init script hard-coded in DatabaseHandler._connect
(db.py line 351). -/
def initSqlPath : String := "db/sqlite/init/1_init.sql"

/-- Body of DatabaseHandler._connect after the flag update (db.py lines
340-352): construct and connect the adapter selected by use_postgres,
reading required values from the environment (KeyError when absent). -/
def DatabaseHandler.connectCore (env : Env) (appDir : String) (sEng : SQLiteEngine)
    (pEng : PGEngine) (d : DatabaseHandler) :
    List Event × Except DBError DatabaseHandler :=
  if d.use_postgres then
    match env.POSTGRES_USER with
    | none => ([], .error (.keyError "POSTGRES_USER"))
    | some user =>
      match env.POSTGRES_PASSWORD with
      | none => ([], .error (.keyError "POSTGRES_PASSWORD"))
      | some password =>
        match env.POSTGRES_HOST with
        | none => ([], .error (.keyError "POSTGRES_HOST"))
        | some host =>
          match env.POSTGRES_PORT with
          | none => ([], .error (.keyError "POSTGRES_PORT"))
          | some port =>
            match env.POSTGRES_DB_NAME with
            | none => ([], .error (.keyError "POSTGRES_DB_NAME"))
            | some dbName =>
              match PostgreSQLDatabaseHandler.construct pEng
                  (buildConninfo user password host port dbName) with
              | (tr, .ok ph) => (tr, .ok { d with handler := some (.postgres ph) })
              | (tr, .error e) => (tr, .error e)
  else
    match env.SQLITE_DB_PATH with
    | none => ([], .error (.keyError "SQLITE_DB_PATH"))
    | some database_path =>
      match SQLiteDatabaseHandler.construct sEng appDir database_path (some initSqlPath) with
      | (tr, .ok sh) => (tr, .ok { d with handler := some (.sqlite sh) })
      | (tr, .error e) => (tr, .error e)

/-- DatabaseHandler._connect (db.py lines 330-352): when a flag value is
supplied, store it in use_postgres first, then construct and connect the
chosen adapter. -/
def DatabaseHandler.connectImpl (env : Env) (appDir : String) (sEng : SQLiteEngine)
    (pEng : PGEngine) (d : DatabaseHandler) (use_postgres : Option Bool) :
    List Event × Except DBError DatabaseHandler :=
  DatabaseHandler.connectCore env appDir sEng pEng
    { d with use_postgres := use_postgres.getD d.use_postgres }

/-- DatabaseHandler.is_connected (db.py lines 364-373): False when no
adapter has been installed, else delegation. -/
def DatabaseHandler.is_connected (d : DatabaseHandler) : Bool :=
  match d.handler with
  | none => false
  | some h => h.is_connected

/-- DatabaseHandler.execute_query (db.py lines 375-385): RuntimeError when
no adapter has been installed, else delegation. -/
def DatabaseHandler.execute_query (sEng : SQLiteEngine) (pEng : PGEngine)
    (d : DatabaseHandler) (query : String) (params : Option (List Param)) :
    List Event × Except DBError Unit :=
  match d.handler with
  | none => ([], .error (.runtimeError "Database handler is not initialized"))
  | some (.sqlite h) => h.execute_query sEng query params
  | some (.postgres h) => h.execute_query pEng query params

/-- DatabaseHandler.fetch_query (db.py lines 387-400). -/
def DatabaseHandler.fetch_query (sEng : SQLiteEngine) (pEng : PGEngine)
    (d : DatabaseHandler) (query : String) (params : Option (List Param)) :
    List Event × Except DBError (List Row) :=
  match d.handler with
  | none => ([], .error (.runtimeError "Database handler is not initialized"))
  | some (.sqlite h) => h.fetch_query sEng query params
  | some (.postgres h) => h.fetch_query pEng query params

/-- DatabaseHandler.close_connection (db.py lines 402-405): silently does
nothing when no adapter has been installed; otherwise delegates and keeps
the (now closed) adapter in the handler field. -/
def DatabaseHandler.close_connection (sEng : SQLiteEngine) (pEng : PGEngine)
    (d : DatabaseHandler) : List Event × DatabaseHandler :=
  match d.handler with
  | none => ([], d)
  | some (.sqlite h) =>
    ((h.close_connection sEng).1,
      { d with handler := some (.sqlite (h.close_connection sEng).2) })
  | some (.postgres h) =>
    ((h.close_connection pEng).1,
      { d with handler := some (.postgres (h.close_connection pEng).2) })

/-- DatabaseHandler.reconnect (db.py lines 354-362): close the current
connection first, then connect with the new flag. -/
def DatabaseHandler.reconnect (env : Env) (appDir : String) (sEng : SQLiteEngine)
    (pEng : PGEngine) (d : DatabaseHandler) (use_postgres : Bool) :
    List Event × Except DBError DatabaseHandler :=
  ((d.close_connection sEng pEng).1
      ++ ((d.close_connection sEng pEng).2.connectImpl env appDir sEng pEng
            (some use_postgres)).1,
    ((d.close_connection sEng pEng).2.connectImpl env appDir sEng pEng
        (some use_postgres)).2)

/-- Characters removed by Python str.strip() on the ASCII query text. -/
def isPySpace (c : Char) : Bool :=
  c = ' ' || c = '\t' || c = '\n' || c = '\r' || c = '\x0b' || c = '\x0c'

/-- Python str.strip(): drop whitespace from both ends. -/
def pyStrip (l : List Char) : List Char :=
  ((l.dropWhile isPySpace).reverse.dropWhile isPySpace).reverse

/-- Python str.upper() restricted to the ASCII range used by the query
screen, character by character. -/
def pyUpper (l : List Char) : List Char :=
  l.map Char.toUpper

/-- Where QueryView.execute_custom_query sends the text of the query
field: rejected client-side when empty after stripping, else routed to
DatabaseHandler.fetch_query or DatabaseHandler.execute_query. -/
inductive QueryRoute where
  | rejectedEmpty
  | toFetchQuery
  | toExecuteQuery
deriving DecidableEq, Repr

/-- Classification step of QueryView.execute_custom_query (main.py lines
285-335): strip the raw text, reject the empty string, otherwise test
query.upper().startswith("SELECT") and route accordingly. -/
def classify_custom_query (raw : String) : QueryRoute :=
  if pyStrip raw.data = [] then .rejectedEmpty
  else if List.isPrefixOf "SELECT".data (pyUpper (pyStrip raw.data)) then .toFetchQuery
  else .toExecuteQuery

/-- Split a character list into the segments between slash separators. -/
def splitSlash : List Char → List (List Char)
  | [] => [[]]
  | '/' :: rest => [] :: splitSlash rest
  | c :: rest =>
    match splitSlash rest with
    | [] => [[c]]
    | s :: ss => (c :: s) :: ss

/-- A path string is absolute when it begins with a slash. -/
def isAbsolute (p : String) : Bool :=
  p.data.head? == some '/'

/-- A path p locates a file strictly under the directory root: root
followed by a slash is a literal prefix of p and the remainder has no
parent-directory segment that could climb back out. -/
def underRoot (root p : String) : Bool :=
  List.isPrefixOf (root.data ++ ['/']) p.data
    && (splitSlash (p.data.drop root.data.length)).all (fun s => s ≠ ['.', '.'])

/-- A sqlite3 oracle whose operations all succeed, used to instantiate
universally quantified theorems at concrete inputs. -/
def okSQLiteEngine : SQLiteEngine where
  fileExists := fun _ => true
  scriptResult := fun _ _ => .ok ()
  connectResult := fun _ => .ok 0
  execResult := fun _ _ _ => .ok ()
  fetchResult := fun _ _ _ => .ok []
  closeResult := fun _ => .ok ()

/-- A psycopg2 oracle whose operations all succeed. -/
def okPGEngine : PGEngine where
  poolResult := fun _ => .ok 0
  getconnResult := fun _ => .ok 0
  execResult := fun _ _ _ => .ok ()
  fetchResult := fun _ _ _ => .ok []
  closeAllResult := fun _ => .ok ()

/-- A sqlite3 oracle whose close raises, to exercise the close-failure
path of close_connection. -/
def closeFailSQLiteEngine : SQLiteEngine where
  fileExists := fun _ => true
  scriptResult := fun _ _ => .ok ()
  connectResult := fun _ => .ok 0
  execResult := fun _ _ _ => .ok ()
  fetchResult := fun _ _ _ => .ok []
  closeResult := fun _ => .error "disk I/O error"

/-- A psycopg2 oracle whose closeall raises. -/
def closeFailPGEngine : PGEngine where
  poolResult := fun _ => .ok 0
  getconnResult := fun _ => .ok 0
  execResult := fun _ _ _ => .ok ()
  fetchResult := fun _ _ _ => .ok []
  closeAllResult := fun _ => .error "pool already closed"

/-- A sqlite3 oracle reporting that the database file does not exist yet. -/
def freshFileSQLiteEngine : SQLiteEngine :=
  { okSQLiteEngine with fileExists := fun _ => false }

/-- A concrete environment supplying only the sqlite path. -/
def envSqliteOnly : Env where
  POSTGRES_USER := none
  POSTGRES_PASSWORD := none
  POSTGRES_HOST := none
  POSTGRES_PORT := none
  POSTGRES_DB_NAME := none
  SQLITE_DB_PATH := some "/db/database.sqlite"

/-! Theorems. First the support lemmas about placeholder rewriting, then
one theorem per specification claim, each with its witness where the
statement carries hypotheses. -/

lemma pyReplacePercentS_head (d : Char) (rest : List Char) :
    (pyReplacePercentS (d :: rest)).head? = some '?' ∨
      (pyReplacePercentS (d :: rest)).head? = some d := by
  cases rest with
  | nil => right; rfl
  | cons e r =>
    rw [pyReplacePercentS]
    split
    · left; rfl
    · right; rfl

lemma noPercentS_cons {x : List Char} {c : Char}
    (hx : noPercentS x = true) (h : c ≠ '%' ∨ x.head? ≠ some 's') :
    noPercentS (c :: x) = true := by
  cases x with
  | nil => rfl
  | cons e r =>
    rw [noPercentS]
    simp only [Bool.and_eq_true, Bool.not_eq_true', Bool.and_eq_false_iff]
    refine ⟨?_, hx⟩
    rcases h with h | h
    · left; simpa using h
    · right; simpa using h

lemma noPercentS_pyReplacePercentS (l : List Char) :
    noPercentS (pyReplacePercentS l) = true := by
  induction l using pyReplacePercentS.induct with
  | case1 => rfl
  | case2 c => rfl
  | case3 c d rest h ih =>
    rw [pyReplacePercentS, if_pos h]
    exact noPercentS_cons ih (Or.inl (by decide))
  | case4 c d rest h ih =>
    rw [pyReplacePercentS, if_neg h]
    apply noPercentS_cons ih
    by_cases hc : c = '%'
    · right
      have hd : d ≠ 's' := fun hd => h ⟨hc, hd⟩
      rcases pyReplacePercentS_head d rest with h1 | h1 <;> rw [h1] <;> simp [hd]
    · exact Or.inl hc

lemma pyReplacePercentS_of_noPercentS (l : List Char) :
    noPercentS l = true → pyReplacePercentS l = l := by
  induction l using pyReplacePercentS.induct with
  | case1 => intro _; rfl
  | case2 c => intro _; rfl
  | case3 c d rest h ih =>
    intro hno
    rw [noPercentS] at hno
    simp [h.1, h.2] at hno
  | case4 c d rest h ih =>
    intro hno
    rw [noPercentS] at hno
    simp only [Bool.and_eq_true] at hno
    rw [pyReplacePercentS, if_neg h, ih hno.2]

lemma pyReplacePercentS_idem (l : List Char) :
    pyReplacePercentS (pyReplacePercentS l) = pyReplacePercentS l :=
  pyReplacePercentS_of_noPercentS _ (noPercentS_pyReplacePercentS l)

lemma rewriteQuery_idem (q : String) :
    rewriteQuery (rewriteQuery q) = rewriteQuery q := by
  unfold rewriteQuery
  simp [pyReplacePercentS_idem]

/-- C1: the claim states that all four delegated operations of a never
connected DatabaseHandler fail with the not-initialized error. On the
handler with handler = none, is_connected instead returns False and
close_connection silently returns with no action and no error, so the
claim is false as stated. -/
theorem c1_counterexample :
    DatabaseHandler.is_connected { use_postgres := false, handler := none } = false ∧
    DatabaseHandler.close_connection okSQLiteEngine okPGEngine
        { use_postgres := false, handler := none }
      = ([], { use_postgres := false, handler := none }) :=
  ⟨rfl, rfl⟩

/-- C1 (amended): on a DatabaseHandler on which no successful connect has
occurred (handler = none), execute_query and fetch_query fail with the
explicit not-initialized error and perform no action; is_connected does
not fail but returns False, and close_connection does not fail but
performs no action. -/
theorem c1_uninitialized_handler (sEng : SQLiteEngine) (pEng : PGEngine)
    (d : DatabaseHandler) (q : String) (ps : Option (List Param))
    (hd : d.handler = none) :
    d.execute_query sEng pEng q ps
        = ([], .error (.runtimeError "Database handler is not initialized")) ∧
    d.fetch_query sEng pEng q ps
        = ([], .error (.runtimeError "Database handler is not initialized")) ∧
    d.is_connected = false ∧
    d.close_connection sEng pEng = ([], d) := by
  cases d with
  | mk up hh =>
    cases hd
    exact ⟨rfl, rfl, rfl, rfl⟩

/-- C1 witness: the amended theorem applied to the freshly constructed
handler. -/
theorem c1_uninitialized_handler_witness :
    DatabaseHandler.execute_query okSQLiteEngine okPGEngine
        { use_postgres := false, handler := none } "SELECT * FROM documents" none
        = ([], .error (.runtimeError "Database handler is not initialized")) ∧
    DatabaseHandler.fetch_query okSQLiteEngine okPGEngine
        { use_postgres := false, handler := none } "SELECT * FROM documents" none
        = ([], .error (.runtimeError "Database handler is not initialized")) ∧
    DatabaseHandler.is_connected { use_postgres := false, handler := none } = false ∧
    DatabaseHandler.close_connection okSQLiteEngine okPGEngine
        { use_postgres := false, handler := none }
      = ([], { use_postgres := false, handler := none }) :=
  c1_uninitialized_handler okSQLiteEngine okPGEngine
    { use_postgres := false, handler := none } "SELECT * FROM documents" none rfl

/-- C2: placeholder rewriting is idempotent, and running a query with
server-style markers through the SQLite adapter behaves identically (same
trace, same result) to running the rewritten native-marker query, for
both execute_query and fetch_query and for every engine, handler state
and parameter tuple. -/
theorem c2_placeholder_rewriting_idempotent_exact (q : String) (eng : SQLiteEngine)
    (h : SQLiteDatabaseHandler) (ps : Option (List Param)) :
    rewriteQuery (rewriteQuery q) = rewriteQuery q ∧
    h.execute_query eng q ps = h.execute_query eng (rewriteQuery q) ps ∧
    h.fetch_query eng q ps = h.fetch_query eng (rewriteQuery q) ps := by
  refine ⟨rewriteQuery_idem q, ?_, ?_⟩ <;>
    simp only [SQLiteDatabaseHandler.execute_query, SQLiteDatabaseHandler.fetch_query,
      rewriteQuery_idem]




/-- C4: with an init script configured, the embedded adapter's connect
executes the initialization script if and only if the database file does
not exist at connect time; when absent, the trace is mkdir-parents, then
run-script, then (at most) the opening of the working connection. -/
theorem c4_init_script_iff_fresh_file (eng : SQLiteEngine) (h : SQLiteDatabaseHandler)
    (sp : String) (hs : h.init_sql_path = some sp) :
    (eng.fileExists h.database_path = true →
      ∀ s db, Event.runInitScript s db ∉ (h.connect eng).1) ∧
    (eng.fileExists h.database_path = false →
      ∃ rest, (h.connect eng).1
          = Event.mkdirParents h.database_path
            :: Event.runInitScript sp h.database_path :: rest
        ∧ (rest = [] ∨ rest = [Event.openSqlite h.database_path])) := by
  constructor
  · intro hex s db
    unfold SQLiteDatabaseHandler.connect
    rw [if_pos hex]
    cases eng.connectResult h.database_path <;> simp
  · intro hex
    unfold SQLiteDatabaseHandler.connect
    rw [if_neg (by simp [hex]), hs]
    cases hsr : eng.scriptResult sp h.database_path with
    | error e => exact ⟨[], by simp [hsr], Or.inl rfl⟩
    | ok u =>
      cases hcr : eng.connectResult h.database_path with
      | ok c =>
        exact ⟨[Event.openSqlite h.database_path], by simp [hsr, hcr], Or.inr rfl⟩
      | error e =>
        exact ⟨[Event.openSqlite h.database_path], by simp [hsr, hcr], Or.inr rfl⟩

/-- C4 witness: the theorem applied to a fresh-file engine and the
handler built by DatabaseHandler._connect. -/
theorem c4_witness :
    (freshFileSQLiteEngine.fileExists "/app/db.sqlite" = true →
      ∀ s db, Event.runInitScript s db ∉
        (SQLiteDatabaseHandler.connect freshFileSQLiteEngine
          ⟨none, "/app/db.sqlite", some initSqlPath⟩).1) ∧
    (freshFileSQLiteEngine.fileExists "/app/db.sqlite" = false →
      ∃ rest, (SQLiteDatabaseHandler.connect freshFileSQLiteEngine
            ⟨none, "/app/db.sqlite", some initSqlPath⟩).1
          = Event.mkdirParents "/app/db.sqlite"
            :: Event.runInitScript initSqlPath "/app/db.sqlite" :: rest
        ∧ (rest = [] ∨ rest = [Event.openSqlite "/app/db.sqlite"])) :=
  c4_init_script_iff_fresh_file freshFileSQLiteEngine
    ⟨none, "/app/db.sqlite", some initSqlPath⟩ initSqlPath rfl

/-- C5: the claim states close failures propagate a description string
to the caller. Concretely, with engines whose close raises, both adapters
return normally from close_connection (its type has no error outcome
because db.py lines 190-198 and 288-296 catch the exception), so nothing
propagates: the claim is false. -/
theorem c5_counterexample :
    closeFailSQLiteEngine.closeResult 0 = Except.error "disk I/O error" ∧
    SQLiteDatabaseHandler.close_connection closeFailSQLiteEngine
        ⟨some 0, "/app/db.sqlite", none⟩
      = ([Event.sqliteClose 0], ⟨some 0, "/app/db.sqlite", none⟩) ∧
    closeFailPGEngine.closeAllResult 0 = Except.error "pool already closed" ∧
    PostgreSQLDatabaseHandler.close_connection closeFailPGEngine ⟨"conninfo", some 0⟩
      = ([Event.closePool 0], ⟨"conninfo", some 0⟩) :=
  ⟨rfl, rfl, rfl, rfl⟩

/-- C5 (amended): every close failure is caught inside close_connection
and logged, never propagated: the call returns normally with only the
close-attempt event, and the connection/pool field keeps its value. -/
theorem c5_close_failures_swallowed (sEng : SQLiteEngine) (pEng : PGEngine)
    (h : SQLiteDatabaseHandler) (ph : PostgreSQLDatabaseHandler)
    (c : Conn) (p : Pool) (msg1 msg2 : String)
    (hc : h.connection = some c) (hf1 : sEng.closeResult c = .error msg1)
    (hp : ph.pool = some p) (hf2 : pEng.closeAllResult p = .error msg2) :
    h.close_connection sEng = ([Event.sqliteClose c], h) ∧
    ph.close_connection pEng = ([Event.closePool p], ph) := by
  simp [SQLiteDatabaseHandler.close_connection, PostgreSQLDatabaseHandler.close_connection,
    hc, hf1, hp, hf2]

/-- C5 witness: the amended theorem at the failing-close engines. -/
theorem c5_close_failures_swallowed_witness :
    SQLiteDatabaseHandler.close_connection closeFailSQLiteEngine
        ⟨some 0, "/app/db.sqlite", none⟩
      = ([Event.sqliteClose 0], ⟨some 0, "/app/db.sqlite", none⟩) ∧
    PostgreSQLDatabaseHandler.close_connection closeFailPGEngine ⟨"conninfo", some 0⟩
      = ([Event.closePool 0], ⟨"conninfo", some 0⟩) :=
  c5_close_failures_swallowed closeFailSQLiteEngine closeFailPGEngine
    ⟨some 0, "/app/db.sqlite", none⟩ ⟨"conninfo", some 0⟩ 0 0
    "disk I/O error" "pool already closed" rfl rfl rfl rfl

/-- C6: on a connected pool, every connection checked out by
execute_query or fetch_query is returned to the pool on exit: the trace is
either empty (checkout itself failed, nothing checked out) or exactly
getconn, execute, putconn, for every engine outcome including statement
errors. -/
theorem c6_pool_connection_always_returned (pEng : PGEngine)
    (ph : PostgreSQLDatabaseHandler) (pl : Pool) (q : String) (ps : Option (List Param))
    (hp : ph.pool = some pl) :
    (∀ c, Event.getconn c ∈ (ph.execute_query pEng q ps).1 →
        Event.putconn c ∈ (ph.execute_query pEng q ps).1) ∧
    (∀ c, Event.getconn c ∈ (ph.fetch_query pEng q ps).1 →
        Event.putconn c ∈ (ph.fetch_query pEng q ps).1) ∧
    ((ph.execute_query pEng q ps).1 = [] ∨
      ∃ c, (ph.execute_query pEng q ps).1
          = [Event.getconn c, Event.pgExec c q ps, Event.putconn c]) ∧
    ((ph.fetch_query pEng q ps).1 = [] ∨
      ∃ c, (ph.fetch_query pEng q ps).1
          = [Event.getconn c, Event.pgExec c q ps, Event.putconn c]) := by
  unfold PostgreSQLDatabaseHandler.execute_query PostgreSQLDatabaseHandler.fetch_query
  rw [hp]
  cases hg : pEng.getconnResult pl with
  | error e => simp [hg]
  | ok c0 =>
    cases he : pEng.execResult c0 q ps <;>
      cases hf : pEng.fetchResult c0 q ps <;>
        refine ⟨?_, ?_, Or.inr ⟨c0, by simp [hg, he, hf]⟩, Or.inr ⟨c0, by simp [hg, he, hf]⟩⟩ <;>
          simp [hg, he, hf]



/-- C6 witness: the theorem at a connected pool and a concrete
statement. -/
theorem c6_witness :
    (∀ c, Event.getconn c ∈
        (PostgreSQLDatabaseHandler.execute_query okPGEngine ⟨"conninfo", some 0⟩
          "INSERT INTO documents (title, content) VALUES (%s, %s)" (some ["t", "c"])).1 →
      Event.putconn c ∈
        (PostgreSQLDatabaseHandler.execute_query okPGEngine ⟨"conninfo", some 0⟩
          "INSERT INTO documents (title, content) VALUES (%s, %s)" (some ["t", "c"])).1) ∧
    (∀ c, Event.getconn c ∈
        (PostgreSQLDatabaseHandler.fetch_query okPGEngine ⟨"conninfo", some 0⟩
          "INSERT INTO documents (title, content) VALUES (%s, %s)" (some ["t", "c"])).1 →
      Event.putconn c ∈
        (PostgreSQLDatabaseHandler.fetch_query okPGEngine ⟨"conninfo", some 0⟩
          "INSERT INTO documents (title, content) VALUES (%s, %s)" (some ["t", "c"])).1) ∧
    ((PostgreSQLDatabaseHandler.execute_query okPGEngine ⟨"conninfo", some 0⟩
          "INSERT INTO documents (title, content) VALUES (%s, %s)" (some ["t", "c"])).1 = [] ∨
      ∃ c, (PostgreSQLDatabaseHandler.execute_query okPGEngine ⟨"conninfo", some 0⟩
          "INSERT INTO documents (title, content) VALUES (%s, %s)" (some ["t", "c"])).1
        = [Event.getconn c,
            Event.pgExec c "INSERT INTO documents (title, content) VALUES (%s, %s)"
              (some ["t", "c"]),
            Event.putconn c]) ∧
    ((PostgreSQLDatabaseHandler.fetch_query okPGEngine ⟨"conninfo", some 0⟩
          "INSERT INTO documents (title, content) VALUES (%s, %s)" (some ["t", "c"])).1 = [] ∨
      ∃ c, (PostgreSQLDatabaseHandler.fetch_query okPGEngine ⟨"conninfo", some 0⟩
          "INSERT INTO documents (title, content) VALUES (%s, %s)" (some ["t", "c"])).1
        = [Event.getconn c,
            Event.pgExec c "INSERT INTO documents (title, content) VALUES (%s, %s)"
              (some ["t", "c"]),
            Event.putconn c]) :=
  c6_pool_connection_always_returned okPGEngine ⟨"conninfo", some 0⟩ 0
    "INSERT INTO documents (title, content) VALUES (%s, %s)" (some ["t", "c"]) rfl

lemma sqlite_close_idem (sEng : SQLiteEngine) (h : SQLiteDatabaseHandler) :
    ((h.close_connection sEng).2.close_connection sEng).2 = (h.close_connection sEng).2 := by
  cases hc : h.connection with
  | none => simp [SQLiteDatabaseHandler.close_connection, hc]
  | some c =>
    cases hr : sEng.closeResult c with
    | ok u => simp [SQLiteDatabaseHandler.close_connection, hc, hr]
    | error e => simp [SQLiteDatabaseHandler.close_connection, hc, hr]

lemma pg_close_idem (pEng : PGEngine) (ph : PostgreSQLDatabaseHandler) :
    ((ph.close_connection pEng).2.close_connection pEng).2 = (ph.close_connection pEng).2 := by
  cases hp : ph.pool with
  | none => simp [PostgreSQLDatabaseHandler.close_connection, hp]
  | some p =>
    cases hr : pEng.closeAllResult p with
    | ok u => simp [PostgreSQLDatabaseHandler.close_connection, hp, hr]
    | error e => simp [PostgreSQLDatabaseHandler.close_connection, hp, hr]

lemma handler_close_idem (sEng : SQLiteEngine) (pEng : PGEngine) (d : DatabaseHandler) :
    ((d.close_connection sEng pEng).2.close_connection sEng pEng).2
      = (d.close_connection sEng pEng).2 := by
  cases hh : d.handler with
  | none => simp [DatabaseHandler.close_connection, hh]
  | some bh =>
    cases bh with
    | sqlite h =>
      have hi := sqlite_close_idem sEng h
      cases h1 : h.close_connection sEng with
      | mk tr1 h2 =>
        rw [h1] at hi
        cases h2c : h2.close_connection sEng with
        | mk tr2 h3 =>
          rw [h2c] at hi
          simp [DatabaseHandler.close_connection, hh, h1, h2c, hi]
    | postgres ph =>
      have hi := pg_close_idem pEng ph
      cases h1 : ph.close_connection pEng with
      | mk tr1 h2 =>
        rw [h1] at hi
        cases h2c : h2.close_connection pEng with
        | mk tr2 h3 =>
          rw [h2c] at hi
          simp [DatabaseHandler.close_connection, hh, h1, h2c, hi]

/-- C7: close_connection is idempotent on both adapters and on the
unified handler: already-closed close is a no-op with no action and no
error, and the state after close;close equals the state after a single
close. -/
theorem c7_close_connection_idempotent (sEng : SQLiteEngine) (pEng : PGEngine)
    (h : SQLiteDatabaseHandler) (ph : PostgreSQLDatabaseHandler) (d : DatabaseHandler) :
    (h.connection = none → h.close_connection sEng = ([], h)) ∧
    ((h.close_connection sEng).2.close_connection sEng).2 = (h.close_connection sEng).2 ∧
    (ph.pool = none → ph.close_connection pEng = ([], ph)) ∧
    ((ph.close_connection pEng).2.close_connection pEng).2 = (ph.close_connection pEng).2 ∧
    (d.handler = none → d.close_connection sEng pEng = ([], d)) ∧
    ((d.close_connection sEng pEng).2.close_connection sEng pEng).2
      = (d.close_connection sEng pEng).2 := by
  refine ⟨?_, sqlite_close_idem sEng h, ?_, pg_close_idem pEng ph, ?_,
    handler_close_idem sEng pEng d⟩
  · intro hc; simp [SQLiteDatabaseHandler.close_connection, hc]
  · intro hp; simp [PostgreSQLDatabaseHandler.close_connection, hp]
  · intro hd; simp [DatabaseHandler.close_connection, hd]

/-- C7 witness: the theorem at already-closed concrete states. -/
theorem c7_close_connection_idempotent_witness :
    (SQLiteDatabaseHandler.connection ⟨none, "/app/db.sqlite", none⟩ = none →
      SQLiteDatabaseHandler.close_connection okSQLiteEngine ⟨none, "/app/db.sqlite", none⟩
        = ([], ⟨none, "/app/db.sqlite", none⟩)) ∧
    ((SQLiteDatabaseHandler.close_connection okSQLiteEngine
        ⟨none, "/app/db.sqlite", none⟩).2.close_connection okSQLiteEngine).2
      = (SQLiteDatabaseHandler.close_connection okSQLiteEngine
          ⟨none, "/app/db.sqlite", none⟩).2 ∧
    (PostgreSQLDatabaseHandler.pool ⟨"conninfo", none⟩ = none →
      PostgreSQLDatabaseHandler.close_connection okPGEngine ⟨"conninfo", none⟩
        = ([], ⟨"conninfo", none⟩)) ∧
    ((PostgreSQLDatabaseHandler.close_connection okPGEngine
        ⟨"conninfo", none⟩).2.close_connection okPGEngine).2
      = (PostgreSQLDatabaseHandler.close_connection okPGEngine ⟨"conninfo", none⟩).2 ∧
    (DatabaseHandler.handler { use_postgres := false, handler := none } = none →
      DatabaseHandler.close_connection okSQLiteEngine okPGEngine
          { use_postgres := false, handler := none }
        = ([], { use_postgres := false, handler := none })) ∧
    ((DatabaseHandler.close_connection okSQLiteEngine okPGEngine
        { use_postgres := false, handler := none }).2.close_connection okSQLiteEngine
          okPGEngine).2
      = (DatabaseHandler.close_connection okSQLiteEngine okPGEngine
          { use_postgres := false, handler := none }).2 :=
  c7_close_connection_idempotent okSQLiteEngine okPGEngine
    ⟨none, "/app/db.sqlite", none⟩ ⟨"conninfo", none⟩
    { use_postgres := false, handler := none }




lemma sqlite_connect_ok_active {eng : SQLiteEngine} {h sh : SQLiteDatabaseHandler}
    {tr : List Event} (he : h.connect eng = (tr, .ok sh)) : sh.is_connected = true := by
  unfold SQLiteDatabaseHandler.connect at he
  repeat' split at he
  all_goals simp at he
  all_goals (obtain ⟨-, h2⟩ := he; subst h2; rfl)

lemma pg_connect_ok_active {eng : PGEngine} {ph ph2 : PostgreSQLDatabaseHandler}
    {tr : List Event} (he : ph.connect eng = (tr, .ok ph2)) : ph2.is_connected = true := by
  unfold PostgreSQLDatabaseHandler.connect at he
  repeat' split at he
  all_goals simp at he
  all_goals (obtain ⟨-, h2⟩ := he; subst h2; rfl)

lemma sqlite_construct_ok_active {eng : SQLiteEngine} {appDir p : String}
    {isp : Option String} {tr : List Event} {sh : SQLiteDatabaseHandler}
    (he : SQLiteDatabaseHandler.construct eng appDir p isp = (tr, .ok sh)) :
    sh.is_connected = true := by
  unfold SQLiteDatabaseHandler.construct at he
  exact sqlite_connect_ok_active he

lemma pg_construct_ok_active {eng : PGEngine} {ci : String} {tr : List Event}
    {ph : PostgreSQLDatabaseHandler}
    (he : PostgreSQLDatabaseHandler.construct eng ci = (tr, .ok ph)) :
    ph.is_connected = true := by
  unfold PostgreSQLDatabaseHandler.construct at he
  exact pg_connect_ok_active he



lemma connectCore_ok_active {env : Env} {appDir : String} {sEng : SQLiteEngine}
    {pEng : PGEngine} {d d' : DatabaseHandler} {tr : List Event}
    (h : DatabaseHandler.connectCore env appDir sEng pEng d = (tr, .ok d')) :
    ∃ bh, d'.handler = some bh ∧ bh.is_connected = true := by
  unfold DatabaseHandler.connectCore at h
  repeat' split at h
  all_goals simp at h
  case _ user password host port dbName trc ph heq =>
    obtain ⟨-, h2⟩ := h
    subst h2
    exact ⟨.postgres ph, rfl, pg_construct_ok_active heq⟩
  case _ database_path trc sh heq =>
    obtain ⟨-, h2⟩ := h
    subst h2
    exact ⟨.sqlite sh, rfl, sqlite_construct_ok_active heq⟩

lemma connectImpl_ok_active {env : Env} {appDir : String} {sEng : SQLiteEngine}
    {pEng : PGEngine} {d d' : DatabaseHandler} {ub : Option Bool} {tr : List Event}
    (h : d.connectImpl env appDir sEng pEng ub = (tr, .ok d')) :
    ∃ bh, d'.handler = some bh ∧ bh.is_connected = true := by
  unfold DatabaseHandler.connectImpl at h
  exact connectCore_ok_active h

lemma handler_close_disconnects (sEng : SQLiteEngine) (pEng : PGEngine)
    (d : DatabaseHandler)
    (hs : ∀ c, sEng.closeResult c = Except.ok ())
    (hp : ∀ p, pEng.closeAllResult p = Except.ok ()) :
    ((d.close_connection sEng pEng).2).is_connected = false := by
  cases hh : d.handler with
  | none => simp [DatabaseHandler.close_connection, hh, DatabaseHandler.is_connected]
  | some bh =>
    cases bh with
    | sqlite h =>
      cases hc : h.connection with
      | none =>
        simp [DatabaseHandler.close_connection, SQLiteDatabaseHandler.close_connection,
          hh, hc, DatabaseHandler.is_connected, BaseHandler.is_connected,
          SQLiteDatabaseHandler.is_connected]
      | some c =>
        simp [DatabaseHandler.close_connection, SQLiteDatabaseHandler.close_connection,
          hh, hc, hs c, DatabaseHandler.is_connected, BaseHandler.is_connected,
          SQLiteDatabaseHandler.is_connected]
    | postgres ph =>
      cases hpo : ph.pool with
      | none =>
        simp [DatabaseHandler.close_connection, PostgreSQLDatabaseHandler.close_connection,
          hh, hpo, DatabaseHandler.is_connected, BaseHandler.is_connected,
          PostgreSQLDatabaseHandler.is_connected]
      | some p =>
        simp [DatabaseHandler.close_connection, PostgreSQLDatabaseHandler.close_connection,
          hh, hpo, hp p, DatabaseHandler.is_connected, BaseHandler.is_connected,
          PostgreSQLDatabaseHandler.is_connected]

/-- C3: every successful backend switch via reconnect first runs
close_connection on the previously active adapter (its trace is a prefix
of the reconnect trace and the new adapter is constructed from the closed
state), the old adapter ends disconnected, and exactly one connected
adapter is active afterwards. -/
theorem c3_reconnect_closes_then_single_active (env : Env) (appDir : String)
    (sEng : SQLiteEngine) (pEng : PGEngine) (d : DatabaseHandler) (b : Bool)
    (tr : List Event) (d' : DatabaseHandler)
    (hs : ∀ c, sEng.closeResult c = Except.ok ())
    (hp : ∀ p, pEng.closeAllResult p = Except.ok ())
    (hr : d.reconnect env appDir sEng pEng b = (tr, .ok d')) :
    (∃ bh, d'.handler = some bh ∧ bh.is_connected = true) ∧
    ((d.close_connection sEng pEng).2).is_connected = false ∧
    ∃ tr2, tr = (d.close_connection sEng pEng).1 ++ tr2 ∧
      ((d.close_connection sEng pEng).2).connectImpl env appDir sEng pEng (some b)
        = (tr2, Except.ok d') := by
  unfold DatabaseHandler.reconnect at hr
  simp only [Prod.mk.injEq] at hr
  obtain ⟨htr, hrr⟩ := hr
  have hco : ((d.close_connection sEng pEng).2).connectImpl env appDir sEng pEng (some b)
      = (((d.close_connection sEng pEng).2.connectImpl env appDir sEng pEng (some b)).1,
          Except.ok d') := by
    rw [← hrr]
  exact ⟨connectImpl_ok_active hco, handler_close_disconnects sEng pEng d hs hp,
    ((d.close_connection sEng pEng).2.connectImpl env appDir sEng pEng (some b)).1,
    htr.symm, hco⟩



/-- C3 witness: a successful reconnect to the sqlite backend from a
fresh handler. -/
theorem c3_witness :
    (∃ bh, (DatabaseHandler.mk false (some (BaseHandler.sqlite
          ⟨some 0, "/app/db/database.sqlite", some initSqlPath⟩))).handler = some bh
        ∧ bh.is_connected = true) ∧
    (((DatabaseHandler.mk false none).close_connection okSQLiteEngine
        okPGEngine).2).is_connected = false ∧
    ∃ tr2, [Event.openSqlite "/app/db/database.sqlite"]
        = ((DatabaseHandler.mk false none).close_connection okSQLiteEngine okPGEngine).1
            ++ tr2 ∧
      (((DatabaseHandler.mk false none).close_connection okSQLiteEngine
          okPGEngine).2).connectImpl envSqliteOnly "/app" okSQLiteEngine okPGEngine
          (some false)
        = (tr2, Except.ok (DatabaseHandler.mk false (some (BaseHandler.sqlite
            ⟨some 0, "/app/db/database.sqlite", some initSqlPath⟩)))) :=
  c3_reconnect_closes_then_single_active envSqliteOnly "/app" okSQLiteEngine okPGEngine
    (DatabaseHandler.mk false none) false [Event.openSqlite "/app/db/database.sqlite"]
    (DatabaseHandler.mk false (some (BaseHandler.sqlite
      ⟨some 0, "/app/db/database.sqlite", some initSqlPath⟩)))
    (fun _ => rfl) (fun _ => rfl) (by rfl)




lemma string_data_append (a b : String) : (a ++ b).data = a.data ++ b.data := by
  cases a
  cases b
  rfl

lemma isAbsolute_data {p : String} (h : isAbsolute p = true) :
    ∃ t, p.data = '/' :: t := by
  unfold isAbsolute at h
  cases hd : p.data with
  | nil => rw [hd] at h; simp at h
  | cons a l =>
    rw [hd] at h
    simp at h
    exact ⟨l, by rw [h]⟩

/-- C8: the claim states the resolved path locates the file under the
application root for every input path. get_db_path is string
concatenation, so the input "data/db.sqlite" (no leading slash) under
root "/app/study-sql" yields "/app/study-sqldata/db.sqlite", a sibling
of the root, refuting the claim. -/
theorem c8_counterexample :
    get_db_path "/app/study-sql" "data/db.sqlite" = "/app/study-sqldata/db.sqlite" ∧
    isAbsolute (get_db_path "/app/study-sql" "data/db.sqlite") = true ∧
    underRoot "/app/study-sql" (get_db_path "/app/study-sql" "data/db.sqlite") = false := by
  refine ⟨by decide, by decide, by decide⟩

/-- C8 (amended): the resolved path is always absolute when the
application root is absolute, and it locates the file under the root
whenever the configured path starts with a slash and contains no
parent-directory segment. -/
theorem c8_resolved_path_absolute (root db : String)
    (hroot : isAbsolute root = true) :
    isAbsolute (get_db_path root db) = true ∧
    (isAbsolute db = true →
      (splitSlash db.data).all (fun s => s ≠ ['.', '.']) = true →
      underRoot root (get_db_path root db) = true) := by
  obtain ⟨t, hre⟩ := isAbsolute_data hroot
  constructor
  · unfold isAbsolute get_db_path
    rw [string_data_append, hre]
    rfl
  · intro hdb hdot
    obtain ⟨dt, hde⟩ := isAbsolute_data hdb
    unfold underRoot get_db_path
    rw [string_data_append]
    rw [Bool.and_eq_true]
    constructor
    · rw [hde]
      have hp : root.data ++ ['/'] <+: root.data ++ '/' :: dt :=
        (List.prefix_append_right_inj root.data).mpr ⟨dt, rfl⟩
      exact (List.isPrefixOf_iff_prefix).mpr hp
    · rw [List.drop_left]
      exact hdot

/-- C8 witness: the amended theorem at the root and a leading-slash
database path. -/
theorem c8_resolved_path_absolute_witness :
    isAbsolute "/app/study-sql" = true ∧
    (isAbsolute (get_db_path "/app/study-sql" "/db/database.sqlite") = true ∧
      (isAbsolute "/db/database.sqlite" = true →
        (splitSlash "/db/database.sqlite".data).all (fun s => s ≠ ['.', '.']) = true →
        underRoot "/app/study-sql"
          (get_db_path "/app/study-sql" "/db/database.sqlite") = true)) :=
  ⟨by decide, c8_resolved_path_absolute "/app/study-sql" "/db/database.sqlite" (by decide)⟩



lemma isPrefixOf_select_take6 {l1 l2 : List Char} (h : l1.take 6 = l2.take 6) :
    List.isPrefixOf "SELECT".data l1 = List.isPrefixOf "SELECT".data l2 := by
  have hlen : ("SELECT".data).length = 6 := by decide
  have hiff : (("SELECT".data : List Char) <+: l1) ↔ ("SELECT".data <+: l2) := by
    rw [List.prefix_iff_eq_take, List.prefix_iff_eq_take, hlen, h]
  rw [Bool.eq_iff_iff]
  simpa [List.isPrefixOf_iff_prefix] using hiff

/-- C9: the ad-hoc query screen classifies every non-empty stripped
query by whether its upper-cased text starts with SELECT, routing to
fetch_query exactly then and to execute_query otherwise, and the
classification depends only on the first six characters of the stripped,
case-folded text. -/
theorem c9_select_prefix_classification (raw : String)
    (hne : pyStrip raw.data ≠ []) :
    (classify_custom_query raw
        = if List.isPrefixOf "SELECT".data (pyUpper (pyStrip raw.data))
            then QueryRoute.toFetchQuery else QueryRoute.toExecuteQuery) ∧
    ∀ raw2 : String, pyStrip raw2.data ≠ [] →
      (pyUpper (pyStrip raw.data)).take 6 = (pyUpper (pyStrip raw2.data)).take 6 →
      classify_custom_query raw = classify_custom_query raw2 := by
  constructor
  · unfold classify_custom_query
    rw [if_neg hne]
  · intro raw2 hne2 htake
    unfold classify_custom_query
    rw [if_neg hne, if_neg hne2, isPrefixOf_select_take6 htake]

/-- C9 witness: the theorem at a lower-case select query. -/
theorem c9_select_prefix_classification_witness :
    (classify_custom_query "  select * from documents WHERE title LIKE '%a%'"
        = if List.isPrefixOf "SELECT".data
              (pyUpper (pyStrip "  select * from documents WHERE title LIKE '%a%'".data))
            then QueryRoute.toFetchQuery else QueryRoute.toExecuteQuery) ∧
    ∀ raw2 : String, pyStrip raw2.data ≠ [] →
      (pyUpper (pyStrip "  select * from documents WHERE title LIKE '%a%'".data)).take 6
          = (pyUpper (pyStrip raw2.data)).take 6 →
      classify_custom_query "  select * from documents WHERE title LIKE '%a%'"
        = classify_custom_query raw2 :=
  c9_select_prefix_classification "  select * from documents WHERE title LIKE '%a%'"
    (by decide)

/-- C10: closing the unified handler does not clear the adapter
reference: after a successful connect and close, the handler field still
holds the (now closed) adapter, is_connected returns False, and
execute_query / fetch_query fail with the adapter-level
connection-not-established error, which differs from the unified
handler's not-initialized error. -/
theorem c10_close_keeps_adapter (sEng : SQLiteEngine) (pEng : PGEngine)
    (d : DatabaseHandler) (sh : SQLiteDatabaseHandler) (c : Conn)
    (q : String) (ps : Option (List Param))
    (hh : d.handler = some (.sqlite sh)) (hc : sh.connection = some c)
    (hcl : sEng.closeResult c = Except.ok ()) :
    ((d.close_connection sEng pEng).2).handler
        = some (.sqlite { sh with connection := none }) ∧
    ((d.close_connection sEng pEng).2).is_connected = false ∧
    ((d.close_connection sEng pEng).2).execute_query sEng pEng q ps
        = ([], .error (.runtimeError "Database connection is not established")) ∧
    ((d.close_connection sEng pEng).2).fetch_query sEng pEng q ps
        = ([], .error (.runtimeError "Database connection is not established")) ∧
    "Database connection is not established" ≠ "Database handler is not initialized" := by
  have h2 : (d.close_connection sEng pEng).2
      = { d with handler := some (.sqlite { sh with connection := none }) } := by
    simp [DatabaseHandler.close_connection, hh, SQLiteDatabaseHandler.close_connection,
      hc, hcl]
  rw [h2]
  exact ⟨rfl, rfl, rfl, rfl, by decide⟩

/-- C10 witness: the theorem at a connected sqlite-backed handler. -/
theorem c10_close_keeps_adapter_witness :
    (((DatabaseHandler.mk false (some (BaseHandler.sqlite
          ⟨some 0, "/app/db/database.sqlite", some initSqlPath⟩))).close_connection
        okSQLiteEngine okPGEngine).2).handler
        = some (.sqlite ⟨none, "/app/db/database.sqlite", some initSqlPath⟩) ∧
    (((DatabaseHandler.mk false (some (BaseHandler.sqlite
          ⟨some 0, "/app/db/database.sqlite", some initSqlPath⟩))).close_connection
        okSQLiteEngine okPGEngine).2).is_connected = false ∧
    (((DatabaseHandler.mk false (some (BaseHandler.sqlite
          ⟨some 0, "/app/db/database.sqlite", some initSqlPath⟩))).close_connection
        okSQLiteEngine okPGEngine).2).execute_query okSQLiteEngine okPGEngine
        "SELECT * FROM documents" none
        = ([], .error (.runtimeError "Database connection is not established")) ∧
    (((DatabaseHandler.mk false (some (BaseHandler.sqlite
          ⟨some 0, "/app/db/database.sqlite", some initSqlPath⟩))).close_connection
        okSQLiteEngine okPGEngine).2).fetch_query okSQLiteEngine okPGEngine
        "SELECT * FROM documents" none
        = ([], .error (.runtimeError "Database connection is not established")) ∧
    "Database connection is not established" ≠ "Database handler is not initialized" :=
  c10_close_keeps_adapter okSQLiteEngine okPGEngine
    (DatabaseHandler.mk false (some (BaseHandler.sqlite
      ⟨some 0, "/app/db/database.sqlite", some initSqlPath⟩)))
    ⟨some 0, "/app/db/database.sqlite", some initSqlPath⟩ 0
    "SELECT * FROM documents" none rfl rfl rfl

end StudySql
